import Mathlib

/-!
Shallow embedding of the synify backend (Express + Prisma + R2) request
handlers, translated from `src/routes/songs.ts`, the playlists router and
the Prisma migration.  Pure helpers become Lean functions; the database and
the external HTTP calls become explicit values threaded through the handler
functions.  HTTP statuses are plain naturals.
-/

/-- JS falsiness of an optional string field of a JSON body:
`undefined` (absent) and the empty string are falsy. -/
def jsFalsy : Option String → Bool
  | none => true
  | some s => s = ""

/-- JS `a || b` on strings: `a` when truthy (non-empty), else `b`. -/
def jsOrStr (a b : String) : String :=
  if a = "" then b else a

/-- JS `s.trim()`: whitespace stripped from both ends (structurally, so the
kernel can evaluate it). -/
def jsTrim (s : String) : String :=
  String.mk (((s.data.dropWhile Char.isWhitespace).reverse.dropWhile
    Char.isWhitespace).reverse)

/- ── formatDuration (songs.ts lines 23-27) ─────────────────────────────── -/

/-- JS `s.toString().padStart(2, '0')` applied to a decimal rendering. -/
def padStart2 (s : String) : String :=
  String.mk (List.replicate (2 - s.length) '0') ++ s

/-- `formatDuration` from songs.ts: `m = Math.floor(sec/60)`, `s = sec % 60`,
rendered as `m:ss`.  The route only ever feeds it a stored non-negative
`durationSec`, so the embedding takes a natural. -/
def formatDuration (sec : Nat) : String :=
  toString (sec / 60) ++ ":" ++ padStart2 (toString (sec % 60))

/- ── Playlist data model (Prisma migration + playlists router) ─────────── -/

/-- A `Playlist` row: the columns the playlist handlers read. -/
structure PlaylistRow where
  id : String
  userId : String
  name : String
  description : Option String
  coverUrl : Option String
  deriving Repr, DecidableEq

/-- A `PlaylistItem` row (`playlistId`+`songId` unique, integer position). -/
structure PlaylistItemRow where
  playlistId : String
  songId : String
  position : Int
  deriving Repr, DecidableEq

/-- The slice of the relational store the playlist handlers touch. -/
structure Db where
  playlists : List PlaylistRow
  items : List PlaylistItemRow
  deriving Repr, DecidableEq

/-- `prisma.playlist.findFirst({ where: { id, userId } })`: the ownership
check shared by POST /playlists/:id/songs, PATCH /playlists/:id and
DELETE /playlists/:id. -/
def findOwnedPlaylist (db : Db) (userId pid : String) : Option PlaylistRow :=
  db.playlists.find? (fun p => p.id = pid && p.userId = userId)

/-- `prisma.playlistItem.findFirst({ where: { playlistId }, orderBy:
{ position: 'desc' } })` reduced to the one field the handler reads: the
greatest `position` among the playlist's items (`none` when it has none). -/
def lastItemPosition (db : Db) (pid : String) : Option Int :=
  ((db.items.filter (fun it => it.playlistId = pid)).map (fun it => it.position)).max?

/-- Result of POST /playlists/:id/songs: HTTP status, resulting store, and
the created row when one was created. -/
structure AddSongResult where
  status : Nat
  db : Db
  created : Option PlaylistItemRow
  deriving Repr, DecidableEq

/-- POST /playlists/:id/songs.  Ownership failure is 403; the Prisma create
hits the migration's unique index `PlaylistItem_playlistId_songId_key`, so a
duplicate pair raises `P2002`, which the handler maps to 409; otherwise the
row is created at `(lastItem?.position ?? 0) + 1` and the handler answers
201. -/
def addSongToPlaylist (db : Db) (userId pid songId : String) : AddSongResult :=
  match findOwnedPlaylist db userId pid with
  | none => ⟨403, db, none⟩
  | some _ =>
    let nextPosition := (lastItemPosition db pid).getD 0 + 1
    if db.items.any (fun it => it.playlistId = pid && it.songId = songId) then
      ⟨409, db, none⟩
    else
      let item : PlaylistItemRow := ⟨pid, songId, nextPosition⟩
      ⟨201, { db with items := db.items ++ [item] }, some item⟩

/-- PATCH /playlists/:id.  Ownership failure is 403; otherwise the row is
updated — `name` only when truthy, `description`/`coverUrl` whenever the
body carries the field. -/
def patchPlaylist (db : Db) (userId pid : String)
    (name description coverUrl : Option String) : Nat × Db :=
  match findOwnedPlaylist db userId pid with
  | none => (403, db)
  | some _ =>
    let upd := fun (p : PlaylistRow) =>
      if p.id = pid then
        { p with
          name := match name with
            | some n => if n = "" then p.name else n
            | none => p.name
          description := description.elim p.description some
          coverUrl := coverUrl.elim p.coverUrl some }
      else p
    (200, { db with playlists := db.playlists.map upd })

/-- DELETE /playlists/:id.  Ownership failure is 403; otherwise the row is
deleted and its items go with it (`ON DELETE CASCADE` on
`PlaylistItem.playlistId`). -/
def deletePlaylist (db : Db) (userId pid : String) : Nat × Db :=
  match findOwnedPlaylist db userId pid with
  | none => (403, db)
  | some _ =>
    (200, { playlists := db.playlists.filter (fun p => p.id ≠ pid),
            items := db.items.filter (fun it => it.playlistId ≠ pid) })

/- ── POST /songs/:id/stream-url (songs.ts lines 338-381) ───────────────── -/

/-- The columns `stream-url` selects from the `Song` row. -/
structure SongRow where
  id : String
  audioKey : String
  title : String
  deriving Repr, DecidableEq

/-- A `PlayHistory` row (`playedAt` not modelled: no handler reads it). -/
structure PlayHistoryRow where
  userId : String
  songId : String
  deriving Repr, DecidableEq

/-- The JSON body `stream-url` answers with. -/
structure StreamUrlBody where
  url : String
  expiresIn : Nat
  songId : String
  title : String
  deriving Repr, DecidableEq

/-- What the handler response looks like: status plus body when 200. -/
structure StreamUrlResponse where
  status : Nat
  body : Option StreamUrlBody
  deriving Repr, DecidableEq

/-- POST /songs/:id/stream-url.  `signedUrl` stands for the value the R2
presigner returns; `user` is the decoded JWT when present;
`historyWriteFails` is the outcome of the fire-and-forget
`prisma.playHistory.create`, whose rejection is swallowed by `.catch`.  The
function returns the HTTP response and the history table after the call. -/
def streamUrlHandler (songs : List SongRow) (id : String) (signedUrl : String)
    (user : Option String) (historyWriteFails : Bool)
    (hist : List PlayHistoryRow) : StreamUrlResponse × List PlayHistoryRow :=
  match songs.find? (fun s => s.id = id) with
  | none => (⟨404, none⟩, hist)
  | some song =>
    let resp : StreamUrlResponse :=
      ⟨200, some ⟨signedUrl, 300, song.id, song.title⟩⟩
    match user with
    | none => (resp, hist)
    | some uid =>
      (resp, if historyWriteFails then hist else hist ++ [⟨uid, song.id⟩])

/- ── Object-key synthesis (songs.ts lines 396-398, 872-874, 998-1000) ──── -/

/-- `fileName.replace(/[^a-zA-Z0-9.-]/g, '_')`. -/
def sanitizeName (s : String) : String :=
  String.mk (s.data.map (fun c =>
    if c.isAlphanum || c = '.' || c = '-' then c else '_'))

/-- The key POST /songs/upload-url builds:
`${folder}/${uniqueId}-${safeName}` (no truncation).  `uniqueId` stands for
the `Date.now().toString(36) + '-' + random` token. -/
def uploadObjectKey (folder uniqueId fileName : String) : String :=
  folder ++ "/" ++ uniqueId ++ "-" ++ sanitizeName fileName

/-- The key the ingestion routes build:
`audio/${uniqueId}-${safeTitle}.mp3` with
`safeTitle = finalTitle.replace(/[^a-zA-Z0-9.-]/g,'_').substring(0, 50)`. -/
def ingestionObjectKey (uniqueId finalTitle : String) : String :=
  "audio/" ++ uniqueId ++ "-" ++ (sanitizeName finalTitle).take 50 ++ ".mp3"

/-- Modelled from the spec's words (§4.2 referring back to §4.1 step 5), for
comparison with `uploadObjectKey`: the upload key with the sanitized base
name truncated to 50 characters. -/
def claimedUploadObjectKey (folder uniqueId fileName : String) : String :=
  folder ++ "/" ++ uniqueId ++ "-" ++ (sanitizeName fileName).take 50

/-- JS `s.replace(first, repl)` with a plain-string pattern: replaces the
first occurrence only. -/
def replaceFirst (s pat repl : String) : String :=
  match s.splitOn pat with
  | [] => s
  | [_] => s
  | h :: t => h ++ repl ++ String.intercalate pat t

/-- Response of POST /songs/upload-url. -/
structure UploadUrlResponse where
  status : Nat
  objectKey : Option String
  publicUrl : Option String
  expiresIn : Option Nat
  deriving Repr, DecidableEq

/-- POST /songs/upload-url.  Missing/empty `fileName` or `fileType` is 400;
otherwise the handler signs a PUT for `uploadObjectKey` valid 600 seconds.
`endpoint` is the `R2_ENDPOINT` environment value used for the
`covers` public URL. -/
def uploadUrlHandler (fileName fileType folder : Option String)
    (uniqueId endpoint : String) : UploadUrlResponse :=
  let fold := folder.getD "audio"
  if jsFalsy fileName || jsFalsy fileType then
    ⟨400, none, none, none⟩
  else
    let objectKey := uploadObjectKey fold uniqueId (fileName.getD "")
    let publicUrl :=
      if fold = "covers" then
        some (replaceFirst endpoint "https://" "https://pub-" ++ "/" ++ objectKey)
      else none
    ⟨200, some objectKey, publicUrl, some 600⟩

/- ── Retry loops (songs.ts lines 944-953, 976-990) ─────────────────────── -/

/-- Outcome of one `await fetch(...)`: the promise rejects (`thrown`) or
resolves with an HTTP status. -/
inductive FetchAttempt where
  | thrown
  | resp (status : Nat)
  deriving Repr, DecidableEq

/-- JS `Response.ok`: status in [200, 300). -/
def respOk (status : Nat) : Bool :=
  200 ≤ status && status < 300

/-- How a fetch loop ends: the last attempt threw past the loop, no attempt
ever resolved (`apiRes` still undefined), or `apiRes` holds a response with
this status. -/
inductive LoopExit where
  | threw
  | noRes
  | res (status : Nat)
  deriving Repr, DecidableEq

/-- Observable trace of a fetch loop: how many `fetch` calls it made, how
long it slept in total, how it ended. -/
structure LoopRun where
  calls : Nat
  sleepMs : Nat
  exit : LoopExit
  deriving Repr, DecidableEq

/-- The body of `for (let i = 0; i < 3; i++) { try { r = await fetch(); if
(r.ok) break; } catch (e) { if (i === 2) throw; await sleep(2000); } }`,
with `f i` the outcome of the `i`-th fetch call.  `fuel` counts the
remaining iterations (so `fuel = 1` is the `i === 2` iteration); `last`
is the response held by the loop variable so far. -/
def retryGo (f : Nat → FetchAttempt) :
    Nat → Nat → Option Nat → Nat → Nat → LoopRun
  | 0, _, last, calls, slept =>
    ⟨calls, slept, match last with
      | some st => .res st
      | none => .noRes⟩
  | fuel + 1, i, last, calls, slept =>
    match f i with
    | .resp st =>
      if respOk st then ⟨calls + 1, slept, .res st⟩
      else retryGo f fuel (i + 1) (some st) (calls + 1) slept
    | .thrown =>
      if fuel = 0 then ⟨calls + 1, slept, .threw⟩
      else retryGo f fuel (i + 1) last (calls + 1) (slept + 2000)

/-- The two retry loops of POST /songs/spotify-download: up to 3 attempts. -/
def retryFetch3 (f : Nat → FetchAttempt) : LoopRun :=
  retryGo f 3 0 none 0 0

/-- A plain `await fetch(...)` (yt-download, yt-search, spotify-search,
yt-preview, spotify-preview, and their MP3 fetches): one attempt, a
rejection propagates to the handler's catch. -/
def fetchOnce (f : Nat → FetchAttempt) : LoopRun :=
  match f 0 with
  | .thrown => ⟨1, 0, .threw⟩
  | .resp st => ⟨1, 0, .res st⟩

/- ── Ingestion pipelines (songs.ts lines 823-928 and 934-1045) ─────────── -/

/-- JS `x || null` on an optional string: `null` when absent or empty. -/
def jsOrNull : Option String → Option String
  | none => none
  | some s => if s = "" then none else some s

/-- JS `a || b` where `a` is an optional string and `b` a string. -/
def jsOrStrOpt (a : Option String) (b : String) : String :=
  match a with
  | none => b
  | some s => if s = "" then b else s

/-- How the created Song row connects its artists: an explicit `artistId`
(connectOrCreate by id, creating `Unknown Artist` placeholders) or derived
names (connectOrCreate by unique name, with Spotify enrichment). -/
inductive ArtistConnect where
  | byIds (ids : List String)
  | byNames (names : List String)
  deriving Repr, DecidableEq

/-- The `data` of the `prisma.song.create` call an ingestion route issues. -/
structure SongCreateData where
  title : String
  durationSec : Nat
  audioKey : String
  coverUrl : Option String
  albumId : Option String
  genre : Option String
  artists : ArtistConnect
  deriving Repr, DecidableEq

/-- The fields yt-download reads from the downloader's `apiData`. -/
structure YtPayload where
  success : Bool
  dataPresent : Bool
  title : String
  thumbnail : Option String
  /-- `Math.floor(Number(duration) || 0)`: `none` when the field is absent
  or not numeric (then the handler stores 0). -/
  duration : Option Nat
  dlink : String
  deriving Repr, DecidableEq

/-- Outcomes of the external effects one yt-download run performs. -/
structure YtIngestEnv where
  api : FetchAttempt
  payload : YtPayload
  /-- result of `cleanMetadataWithAI(rawTitle)` (external AI two-stage call
  with deterministic fallback, embedded separately below). -/
  cleaned : String × List String
  mp3 : FetchAttempt
  blob : Except String Unit
  uniqueId : String

/-- Result of one ingestion run: HTTP status, song table afterwards, and how
many `PutObjectCommand`s were sent to R2. -/
structure IngestResult where
  status : Nat
  catalog : List SongCreateData
  blobPuts : Nat
  deriving Repr, DecidableEq

/-- POST /songs/yt-download.  Single (unretried) downloader fetch and MP3
fetch; a thrown fetch lands in the outer catch (500); a non-ok response is
forwarded as-is; the R2 put is not retried and a failure aborts before
`prisma.song.create`. -/
def ytDownloadHandler (env : YtIngestEnv) (youtubeUrl : Option String)
    (artistId : Option (List String)) (albumId genre : Option String)
    (customTitle : Option String) (customArtistNames : Option (List String))
    (catalog : List SongCreateData) : IngestResult :=
  if jsFalsy youtubeUrl then ⟨400, catalog, 0⟩
  else
    match env.api with
    | .thrown => ⟨500, catalog, 0⟩
    | .resp st =>
      if !respOk st then ⟨st, catalog, 0⟩
      else if !(env.payload.success && env.payload.dataPresent) then
        ⟨400, catalog, 0⟩
      else
        let finalTitle := jsOrStrOpt customTitle env.cleaned.1
        let finalArtistNames :=
          match customArtistNames with
          | some l => if l.isEmpty then env.cleaned.2 else l
          | none => env.cleaned.2
        let artistNames := if artistId.isSome then [] else finalArtistNames
        match env.mp3 with
        | .thrown => ⟨500, catalog, 0⟩
        | .resp mst =>
          if !respOk mst then ⟨mst, catalog, 0⟩
          else
            let objectKey := ingestionObjectKey env.uniqueId finalTitle
            match env.blob with
            | .error _ => ⟨500, catalog, 1⟩
            | .ok _ =>
              let song : SongCreateData :=
                { title := finalTitle
                  durationSec := env.payload.duration.getD 0
                  audioKey := objectKey
                  coverUrl := jsOrNull env.payload.thumbnail
                  albumId := jsOrNull albumId
                  genre := jsOrNull genre
                  artists := match artistId with
                    | some ids => .byIds ids
                    | none => .byNames artistNames }
              ⟨201, catalog ++ [song], 1⟩

/-- The fields spotify-download reads from the downloader's `apiData`. -/
structure SpotifyPayload where
  success : Bool
  dataPresent : Bool
  title : String
  artist : String
  download : Option String
  dataDownload : Option String
  dataUrl : Option String
  albumImage : Option String
  thumbnail : Option String
  /-- duration information the downloader may carry; no line of the handler
  reads it (the row is stored with `durationSec: 0`). -/
  upstreamDuration : Option Nat
  deriving Repr, DecidableEq

/-- Outcomes of the external effects one spotify-download run performs.  The
two fetches are attempt streams because both sit in 3-attempt loops. -/
structure SpotifyIngestEnv where
  api : Nat → FetchAttempt
  payload : SpotifyPayload
  mp3 : Nat → FetchAttempt
  blob : Except String Unit
  uniqueId : String

/-- `apiData.download || apiData.data.download || apiData.data.url`. -/
def spotifyDlink (p : SpotifyPayload) : Option String :=
  match jsOrNull p.download with
  | some s => some s
  | none =>
    match jsOrNull p.dataDownload with
    | some s => some s
    | none => jsOrNull p.dataUrl

/-- POST /songs/spotify-download.  Both external fetches run in the
3-attempt retry loop; the R2 put is not retried; the created row always has
`durationSec: 0`. -/
def spotifyDownloadHandler (env : SpotifyIngestEnv) (spotifyUrl : Option String)
    (artistId : Option (List String)) (albumId genre : Option String)
    (customTitle : Option String) (customArtistNames : Option (List String))
    (catalog : List SongCreateData) : IngestResult :=
  if jsFalsy spotifyUrl then ⟨400, catalog, 0⟩
  else
    match (retryFetch3 env.api).exit with
    | .threw => ⟨500, catalog, 0⟩
    | .noRes => ⟨500, catalog, 0⟩
    | .res st =>
      if !respOk st then ⟨if st = 0 then 500 else st, catalog, 0⟩
      else if !(env.payload.success && env.payload.dataPresent) then
        ⟨400, catalog, 0⟩
      else
        match spotifyDlink env.payload with
        | none => ⟨400, catalog, 0⟩
        | some _ =>
          let finalTitle := jsOrStrOpt customTitle env.payload.title
          let finalArtistNames :=
            customArtistNames.getD
              ((env.payload.artist.splitOn ",").map jsTrim)
          match (retryFetch3 env.mp3).exit with
          | .threw => ⟨500, catalog, 0⟩
          | .noRes => ⟨500, catalog, 0⟩
          | .res mst =>
            if !respOk mst then ⟨if mst = 0 then 500 else mst, catalog, 0⟩
            else
              let objectKey := ingestionObjectKey env.uniqueId finalTitle
              match env.blob with
              | .error _ => ⟨500, catalog, 1⟩
              | .ok _ =>
                let cover :=
                  match jsOrNull env.payload.albumImage with
                  | some s => some s
                  | none => jsOrNull env.payload.thumbnail
                let song : SongCreateData :=
                  { title := finalTitle
                    durationSec := 0
                    audioKey := objectKey
                    coverUrl := cover
                    albumId := jsOrNull albumId
                    genre := jsOrNull genre
                    artists := match artistId with
                      | some ids => .byIds ids
                      | none => .byNames finalArtistNames }
                ⟨201, catalog ++ [song], 1⟩

/- ── Local metadata parser (songs.ts lines 551-560, 639-649, 652-670) ──── -/

/-- Case-insensitive literal match at the head of a char list, returning the
remainder on success (the `i` flag of the noise regex and of the
`/ FEAT /gi`, `/ FT /gi` separators). -/
def matchHeadCI : List Char → List Char → Option (List Char)
  | [], rest => some rest
  | _ :: _, [] => none
  | p :: ps, c :: cs => if p.toLower = c.toLower then matchHeadCI ps cs else none

/-- Exact literal match at the head of a char list, returning the remainder
on success. -/
def matchHeadEq : List Char → List Char → Option (List Char)
  | [], rest => some rest
  | _ :: _, [] => none
  | p :: ps, c :: cs => if p = c then matchHeadEq ps cs else none

/-- JS `String.prototype.split` on a non-empty literal separator, scanning
left to right; `m` is the head matcher (exact or case-insensitive) and
`fuel` bounds the recursion (one unit per consumed character). -/
def splitSepGo (m : List Char → List Char → Option (List Char))
    (sep : List Char) : Nat → List Char → List Char → List (List Char)
  | 0, acc, rest => [acc.reverse ++ rest]
  | _ + 1, acc, [] => [acc.reverse]
  | fuel + 1, acc, c :: cs =>
    match m sep (c :: cs) with
    | some rest => acc.reverse :: splitSepGo m sep fuel [] rest
    | none => splitSepGo m sep fuel (c :: acc) cs

/-- JS `s.split(sep)` for a literal separator, case-insensitive when `ci`. -/
def jsSplit (ci : Bool) (sep : String) (s : String) : List String :=
  (splitSepGo (if ci then matchHeadCI else matchHeadEq) sep.data
    (s.length + 1) [] s.data).map String.mk

/-- JS `rawTitle.split('-')`. -/
def jsSplitDash (s : String) : List String :=
  jsSplit false "-" s

/-- The separator list of `parseArtists`, in application order; the boolean
marks the two case-insensitive ones. -/
def artistSeps : List (String × Bool) :=
  [(" & ", false), (" , ", false), (",", false), (" and ", false),
   (" x ", false), (" X ", false), (" FEAT ", true), (" FT ", true)]

/-- `parseArtists` from songs.ts: nothing without a "-"; otherwise the
segment before the first "-" is trimmed, split successively on every
separator, and the pieces are trimmed and filtered for emptiness. -/
def parseArtists (title : String) : List String :=
  if title.data.all (fun c => c ≠ '-') then []
  else
    let artistPart := jsTrim (String.mk (title.data.takeWhile (fun c => c ≠ '-')))
    let artists := artistSeps.foldl
      (fun as sp => as.flatMap (fun a => jsSplit sp.2 sp.1 a)) [artistPart]
    (artists.map jsTrim).filter (fun a => a.length > 0)

/-- A character JS `.` (no `s` flag) can match: anything except a line
terminator. -/
def jsDotChar (c : Char) : Bool :=
  !(c = '\n' || c = '\r' || c = Char.ofNat 0x2028 || c = Char.ofNat 0x2029)

/-- The lazy `.*?⟩close⟨` tail of the bracketed noise alternatives: consume
up to and including the first closing character, failing at a line
terminator or the end. -/
def lazyThrough (close : Char) : List Char → Option (List Char)
  | [] => none
  | c :: cs =>
    if c = close then some cs
    else if jsDotChar c then lazyThrough close cs
    else none

/-- One bracketed noise alternative `⟨open⟩word.*?⟨close⟩` (the word
case-insensitively). -/
def matchEnclosed (openc closec : Char) (word : String) :
    List Char → Option (List Char)
  | [] => none
  | c :: cs =>
    if c = openc then (matchHeadCI word.data cs).bind (lazyThrough closec)
    else none

/-- The noise regex of the fallback branch, tried at one position:
`/\(Official.*?\)|\[Official.*?\]|\(Lyrics.*?\)|\[Lyrics.*?\]|Official Music
Video|Official Video|Music Video|LYRICS/gi`, alternatives in source
order. -/
def noiseMatch (l : List Char) : Option (List Char) :=
  (matchEnclosed '(' ')' "Official" l) <|>
  (matchEnclosed '[' ']' "Official" l) <|>
  (matchEnclosed '(' ')' "Lyrics" l) <|>
  (matchEnclosed '[' ']' "Lyrics" l) <|>
  (matchHeadCI "Official Music Video".data l) <|>
  (matchHeadCI "Official Video".data l) <|>
  (matchHeadCI "Music Video".data l) <|>
  (matchHeadCI "LYRICS".data l)

/-- Global replacement of every noise match by the empty string, scanning
left to right (JS `replace` with the `g` flag). -/
def stripNoiseGo : Nat → List Char → List Char
  | 0, l => l
  | _ + 1, [] => []
  | fuel + 1, c :: cs =>
    match noiseMatch (c :: cs) with
    | some rest => stripNoiseGo fuel rest
    | none => c :: stripNoiseGo fuel cs

/-- `s.replace(noiseRegex, '')`. -/
def stripNoise (s : String) : String :=
  String.mk (stripNoiseGo (s.length + 1) s.data)

/-- `rawTitle.split('-').pop()?.trim() || rawTitle`: the segment after the
last "-", trimmed, or the raw title when that segment trims to "". -/
def lastDashSegment (rawTitle : String) : String :=
  jsOrStr (jsTrim ((jsSplitDash rawTitle).getLastD "")) rawTitle

/-- The no-API-key branch of `cleanMetadataWithAI` (songs.ts 552-560): the
trimmed last dash segment as title (no noise stripping), `parseArtists`
output or the trimmed first dash segment as artists. -/
def cleanMetadataNoKey (rawTitle : String) : String × List String :=
  let artists := parseArtists rawTitle
  (lastDashSegment rawTitle,
   if artists.length > 0 then artists
   else [jsTrim ((jsSplitDash rawTitle).headD "")])

/-- The AI-failure fallback branch of `cleanMetadataWithAI` (songs.ts
641-648): as above, but the title additionally passes through the noise
regex and a final trim. -/
def cleanMetadataFallback (rawTitle : String) : String × List String :=
  let artists := parseArtists rawTitle
  (jsTrim (stripNoise (lastDashSegment rawTitle)),
   if artists.length > 0 then artists
   else [jsTrim ((jsSplitDash rawTitle).headD "")])

/- ════════════════════════════ Theorems ═══════════════════════════════ -/

/-- Decimal value of a digit string (structural, so the kernel can
evaluate it). -/
def decValue (s : String) : Nat :=
  s.data.foldl (fun a c => 10 * a + (c.toNat - 48)) 0

/-- Helper: a value below 60 renders through `padStart2` as exactly two
decimal digits that read back as that value. -/
theorem pad2_seconds (m : Fin 60) :
    (padStart2 (toString m.val)).length = 2 ∧
    (padStart2 (toString m.val)).data.all Char.isDigit = true ∧
    decValue (padStart2 (toString m.val)) = m.val := by
  revert m
  decide

/-- C9: for every non-negative integer `n`, `formatDuration` renders
`floor(n/60)`, a colon, and `n mod 60` as two zero-padded digits that read
back as `n mod 60`; the seconds are below 60 and the parts recombine to `n`;
243 ↦ "4:03", 60 ↦ "1:00", 5 ↦ "0:05". -/
theorem formatDuration_spec (n : Nat) :
    formatDuration n = toString (n / 60) ++ ":" ++ padStart2 (toString (n % 60)) ∧
    (padStart2 (toString (n % 60))).length = 2 ∧
    (padStart2 (toString (n % 60))).data.all Char.isDigit = true ∧
    decValue (padStart2 (toString (n % 60))) = n % 60 ∧
    n % 60 < 60 ∧
    60 * (n / 60) + n % 60 = n ∧
    formatDuration 243 = "4:03" ∧
    formatDuration 60 = "1:00" ∧
    formatDuration 5 = "0:05" := by
  have h : n % 60 < 60 := Nat.mod_lt _ (by norm_num)
  have hp := pad2_seconds ⟨n % 60, h⟩
  exact ⟨rfl, hp.1, hp.2.1, hp.2.2, h, Nat.div_add_mod n 60, by decide, by decide,
    by decide⟩

/-- Antisymmetry of the integer order, in the form `List.max?_eq_some_iff`
asks for. -/
instance : Std.Antisymm (fun a b : Int => a ≤ b) :=
  ⟨fun h1 h2 => Int.le_antisymm h1 h2⟩

/-- Helper: `List.max?` on integers returns a member that bounds the whole
list. -/
theorem int_max?_eq_some_iff {xs : List Int} {a : Int} :
    xs.max? = some a ↔ a ∈ xs ∧ ∀ b ∈ xs, b ≤ a :=
  List.max?_eq_some_iff le_refl max_choice (fun _ _ _ => max_le_iff)

/-- C1: an insertion via POST /playlists/:id/songs that actually creates a
row (owned playlist, no duplicate pair) assigns position `max + 1` for any
`max` that is a greatest position among the playlist's current items, and
position 1 when the playlist has no items. -/
theorem playlist_insert_position (db : Db) (u pid sid : String)
    (p : PlaylistRow) (hown : findOwnedPlaylist db u pid = some p)
    (hnodup : db.items.any
      (fun it => it.playlistId = pid && it.songId = sid) = false) :
    ∃ it, (addSongToPlaylist db u pid sid).created = some it ∧
      (addSongToPlaylist db u pid sid).status = 201 ∧
      (addSongToPlaylist db u pid sid).db.items = db.items ++ [it] ∧
      ((db.items.filter (fun x => x.playlistId = pid)).map
          (fun x => x.position) = [] → it.position = 1) ∧
      (∀ mx, mx ∈ (db.items.filter (fun x => x.playlistId = pid)).map
          (fun x => x.position) →
        (∀ b ∈ (db.items.filter (fun x => x.playlistId = pid)).map
          (fun x => x.position), b ≤ mx) →
        it.position = mx + 1) := by
  refine ⟨⟨pid, sid, (lastItemPosition db pid).getD 0 + 1⟩, ?_, ?_, ?_, ?_, ?_⟩ <;>
    simp only [addSongToPlaylist, hown, hnodup, Bool.false_eq_true, if_false]
  · intro hempty
    simp only [lastItemPosition, hempty, List.max?_nil, Option.getD_none]
    omega
  · intro mx hmem hub
    have hmax : ((db.items.filter (fun x => x.playlistId = pid)).map
        (fun x => x.position)).max? = some mx :=
      int_max?_eq_some_iff.mpr ⟨hmem, hub⟩
    simp only [lastItemPosition, hmax, Option.getD_some]

/-- C1 witness: inserting into an owned playlist that has one item at
position 5 creates the new item at position 6 (and at 1 for the claim's
empty-playlist clause, exercised through the max clause). -/
theorem playlist_insert_position_witness :
    ∃ it, (addSongToPlaylist
        ⟨[⟨"p1", "u1", "mix", none, none⟩], [⟨"p1", "s1", 5⟩]⟩
        "u1" "p1" "s2").created = some it ∧
      (addSongToPlaylist
        ⟨[⟨"p1", "u1", "mix", none, none⟩], [⟨"p1", "s1", 5⟩]⟩
        "u1" "p1" "s2").status = 201 ∧
      (addSongToPlaylist
        ⟨[⟨"p1", "u1", "mix", none, none⟩], [⟨"p1", "s1", 5⟩]⟩
        "u1" "p1" "s2").db.items = [⟨"p1", "s1", 5⟩] ++ [it] ∧
      ((([⟨"p1", "s1", 5⟩] : List PlaylistItemRow).filter
          (fun x => x.playlistId = "p1")).map
          (fun x => x.position) = [] → it.position = 1) ∧
      (∀ mx, mx ∈ (([⟨"p1", "s1", 5⟩] : List PlaylistItemRow).filter
          (fun x => x.playlistId = "p1")).map (fun x => x.position) →
        (∀ b ∈ (([⟨"p1", "s1", 5⟩] : List PlaylistItemRow).filter
          (fun x => x.playlistId = "p1")).map (fun x => x.position), b ≤ mx) →
        it.position = mx + 1) :=
  playlist_insert_position
    ⟨[⟨"p1", "u1", "mix", none, none⟩], [⟨"p1", "s1", 5⟩]⟩
    "u1" "p1" "s2" ⟨"p1", "u1", "mix", none, none⟩ (by decide) (by decide)

/-- C3: adding a (playlist, song) pair that already exists to an owned
playlist answers 409 and leaves the store — in particular the playlist's
items — unchanged, creating no duplicate row. -/
theorem playlist_duplicate_conflict (db : Db) (u pid sid : String)
    (p : PlaylistRow) (hown : findOwnedPlaylist db u pid = some p)
    (it : PlaylistItemRow) (hmem : it ∈ db.items)
    (hpid : it.playlistId = pid) (hsid : it.songId = sid) :
    (addSongToPlaylist db u pid sid).status = 409 ∧
    (addSongToPlaylist db u pid sid).db = db ∧
    (addSongToPlaylist db u pid sid).created = none := by
  have hdup : db.items.any
      (fun x => x.playlistId = pid && x.songId = sid) = true := by
    exact List.any_eq_true.mpr ⟨it, hmem, by simp [hpid, hsid]⟩
  simp [addSongToPlaylist, hown, hdup]

/-- C3 witness: re-adding song "s1" to playlist "p1", which already holds
it, conflicts and changes nothing. -/
theorem playlist_duplicate_conflict_witness :
    (addSongToPlaylist
        ⟨[⟨"p1", "u1", "mix", none, none⟩], [⟨"p1", "s1", 1⟩]⟩
        "u1" "p1" "s1").status = 409 ∧
    (addSongToPlaylist
        ⟨[⟨"p1", "u1", "mix", none, none⟩], [⟨"p1", "s1", 1⟩]⟩
        "u1" "p1" "s1").db =
      ⟨[⟨"p1", "u1", "mix", none, none⟩], [⟨"p1", "s1", 1⟩]⟩ ∧
    (addSongToPlaylist
        ⟨[⟨"p1", "u1", "mix", none, none⟩], [⟨"p1", "s1", 1⟩]⟩
        "u1" "p1" "s1").created = none :=
  playlist_duplicate_conflict
    ⟨[⟨"p1", "u1", "mix", none, none⟩], [⟨"p1", "s1", 1⟩]⟩
    "u1" "p1" "s1" ⟨"p1", "u1", "mix", none, none⟩ (by decide)
    ⟨"p1", "s1", 1⟩ (by decide) (by decide) (by decide)

/-- C8 counterexample: on an empty store (so the playlist id matches no
existing playlist) POST /playlists/:id/songs, PATCH /playlists/:id and
DELETE /playlists/:id all answer 403, not the 404 the claim requires. -/
theorem playlist_missing_not_404 :
    (addSongToPlaylist ⟨[], []⟩ "u1" "nope" "s1").status = 403 ∧
    (patchPlaylist ⟨[], []⟩ "u1" "nope" none none none).1 = 403 ∧
    (deletePlaylist ⟨[], []⟩ "u1" "nope").1 = 403 ∧
    (403 : Nat) ≠ 404 := by
  decide

/-- C8 amended: whenever no playlist exists that has the requested id and
belongs to the requester — whether the id matches no playlist at all or the
playlist belongs to someone else — the three routes answer 403 and leave
the store unchanged; they never distinguish the missing-playlist case with
a 404. -/
theorem playlist_missing_yields_403 (db : Db) (u pid sid : String)
    (name description coverUrl : Option String)
    (h : findOwnedPlaylist db u pid = none) :
    (addSongToPlaylist db u pid sid).status = 403 ∧
    (addSongToPlaylist db u pid sid).db = db ∧
    (patchPlaylist db u pid name description coverUrl).1 = 403 ∧
    (patchPlaylist db u pid name description coverUrl).2 = db ∧
    (deletePlaylist db u pid).1 = 403 ∧
    (deletePlaylist db u pid).2 = db := by
  simp [addSongToPlaylist, patchPlaylist, deletePlaylist, h]

/-- C8 amended, witness: a store holding only a playlist of another user:
all three routes answer 403 for it. -/
theorem playlist_missing_yields_403_witness :
    (addSongToPlaylist ⟨[⟨"p1", "other", "mix", none, none⟩], []⟩
        "u1" "p1" "s1").status = 403 ∧
    (addSongToPlaylist ⟨[⟨"p1", "other", "mix", none, none⟩], []⟩
        "u1" "p1" "s1").db = ⟨[⟨"p1", "other", "mix", none, none⟩], []⟩ ∧
    (patchPlaylist ⟨[⟨"p1", "other", "mix", none, none⟩], []⟩
        "u1" "p1" (some "x") none none).1 = 403 ∧
    (patchPlaylist ⟨[⟨"p1", "other", "mix", none, none⟩], []⟩
        "u1" "p1" (some "x") none none).2 =
      ⟨[⟨"p1", "other", "mix", none, none⟩], []⟩ ∧
    (deletePlaylist ⟨[⟨"p1", "other", "mix", none, none⟩], []⟩
        "u1" "p1").1 = 403 ∧
    (deletePlaylist ⟨[⟨"p1", "other", "mix", none, none⟩], []⟩
        "u1" "p1").2 = ⟨[⟨"p1", "other", "mix", none, none⟩], []⟩ :=
  playlist_missing_yields_403 ⟨[⟨"p1", "other", "mix", none, none⟩], []⟩
    "u1" "p1" "s1" (some "x") none none (by decide)

/-- C4: when the song exists, POST /songs/:id/stream-url answers 200 with
`expiresIn` exactly 300, and the response — status and body — is the same
whether the fire-and-forget PlayHistory write succeeds or fails; only the
history table can differ. -/
theorem stream_url_expiry_and_history (songs : List SongRow)
    (id signedUrl : String) (user : Option String)
    (hist : List PlayHistoryRow) (song : SongRow)
    (hfind : songs.find? (fun s => s.id = id) = some song) :
    (∀ historyWriteFails,
      (streamUrlHandler songs id signedUrl user historyWriteFails hist).1.status
        = 200 ∧
      ∃ b, (streamUrlHandler songs id signedUrl user historyWriteFails
        hist).1.body = some b ∧ b.expiresIn = 300) ∧
    (streamUrlHandler songs id signedUrl user true hist).1 =
      (streamUrlHandler songs id signedUrl user false hist).1 := by
  constructor
  · intro historyWriteFails
    cases user <;>
      simp [streamUrlHandler, hfind]
  · cases user <;> simp [streamUrlHandler, hfind]

/-- C4 witness: a catalog with one song, an authenticated requester, and
both outcomes of the history write. -/
theorem stream_url_expiry_and_history_witness :
    (∀ historyWriteFails,
      (streamUrlHandler [⟨"s1", "audio/song-01.mp3", "Song"⟩] "s1" "u"
        (some "u1") historyWriteFails []).1.status = 200 ∧
      ∃ b, (streamUrlHandler [⟨"s1", "audio/song-01.mp3", "Song"⟩] "s1" "u"
        (some "u1") historyWriteFails []).1.body = some b ∧
        b.expiresIn = 300) ∧
    (streamUrlHandler [⟨"s1", "audio/song-01.mp3", "Song"⟩] "s1" "u"
        (some "u1") true []).1 =
      (streamUrlHandler [⟨"s1", "audio/song-01.mp3", "Song"⟩] "s1" "u"
        (some "u1") false []).1 :=
  stream_url_expiry_and_history [⟨"s1", "audio/song-01.mp3", "Song"⟩]
    "s1" "u" (some "u1") [] ⟨"s1", "audio/song-01.mp3", "Song"⟩ (by decide)

set_option maxRecDepth 4000 in
/-- C5 counterexample: a 60-character file name.  POST /songs/upload-url
keeps the sanitized name whole, so its key differs from the §4.1-step-5
synthesis (which truncates the base name to 50 characters) that the claim
requires. -/
theorem upload_key_not_truncated :
    (uploadUrlHandler (some (String.mk (List.replicate 60 'a')))
        (some "audio/mpeg") none "t0" "ep").objectKey =
      some (uploadObjectKey "audio" "t0" (String.mk (List.replicate 60 'a'))) ∧
    uploadObjectKey "audio" "t0" (String.mk (List.replicate 60 'a')) ≠
      claimedUploadObjectKey "audio" "t0" (String.mk (List.replicate 60 'a')) := by
  decide

set_option maxRecDepth 4000 in
/-- C5 amended: for present, non-empty `fileName` and `fileType`, the
upload key is the folder (default "audio"), the unique token, and the
sanitized file name — every character outside [A-Za-z0-9.-] replaced by '_',
with NO 50-character truncation (the sanitized name keeps the file name's
full length; only the ingestion routes truncate) — and the signed upload URL
expires in 600 seconds. -/
theorem upload_url_key_and_expiry (fileName fileType folder : Option String)
    (uniqueId endpoint : String)
    (hf : jsFalsy fileName = false) (ht : jsFalsy fileType = false) :
    (uploadUrlHandler fileName fileType folder uniqueId endpoint).status
      = 200 ∧
    (uploadUrlHandler fileName fileType folder uniqueId endpoint).expiresIn
      = some 600 ∧
    (uploadUrlHandler fileName fileType folder uniqueId endpoint).objectKey
      = some ((folder.getD "audio") ++ "/" ++ uniqueId ++ "-"
          ++ sanitizeName (fileName.getD "")) ∧
    (∀ c ∈ (sanitizeName (fileName.getD "")).data,
      c.isAlphanum ∨ c = '.' ∨ c = '-' ∨ c = '_') ∧
    (sanitizeName (fileName.getD "")).length = (fileName.getD "").length := by
  refine ⟨?_, ?_, ?_, ?_, ?_⟩
  · simp [uploadUrlHandler, hf, ht]
  · simp [uploadUrlHandler, hf, ht]
  · simp [uploadUrlHandler, hf, ht, uploadObjectKey]
  · intro c hc
    simp only [sanitizeName, String.mk] at hc
    obtain ⟨d, _, hd⟩ := List.mem_map.mp hc
    by_cases h1 : d.isAlphanum
    · subst hd; simp [h1]
    · by_cases h2 : d = '.'
      · subst hd; simp [h1, h2]
      · by_cases h3 : d = '-'
        · subst hd; simp [h1, h2, h3]
        · subst hd; simp [h1, h2, h3]
  · rw [← String.length_data, ← String.length_data (fileName.getD "")]
    simp [sanitizeName]

/-- C5 amended, witness: a file name with a space and 60 characters total
keeps its full length in the key and gets a 600-second URL. -/
theorem upload_url_key_and_expiry_witness :
    (uploadUrlHandler (some "my song.mp3") (some "audio/mpeg") none "t0"
      "ep").status = 200 ∧
    (uploadUrlHandler (some "my song.mp3") (some "audio/mpeg") none "t0"
      "ep").expiresIn = some 600 ∧
    (uploadUrlHandler (some "my song.mp3") (some "audio/mpeg") none "t0"
      "ep").objectKey = some (((none : Option String).getD "audio") ++ "/"
        ++ "t0" ++ "-" ++ sanitizeName ((some "my song.mp3").getD "")) ∧
    (∀ c ∈ (sanitizeName ((some "my song.mp3").getD "")).data,
      c.isAlphanum ∨ c = '.' ∨ c = '-' ∨ c = '_') ∧
    (sanitizeName ((some "my song.mp3").getD "")).length
      = (((some "my song.mp3") : Option String).getD "").length :=
  upload_url_key_and_expiry (some "my song.mp3") (some "audio/mpeg") none
    "t0" "ep" (by decide) (by decide)

/-- Helper: neither retry loop ever makes more than 3 fetch calls. -/
theorem retryFetch3_calls_le (k : Nat → FetchAttempt) :
    (retryFetch3 k).calls ≤ 3 := by
  rcases h0 : k 0 with _ | st0 <;> rcases h1 : k 1 with _ | st1 <;>
    rcases h2 : k 2 with _ | st2 <;>
      simp [retryFetch3, retryGo, h0, h1, h2] <;>
      split_ifs <;> simp

/-- Helper: the 2-second backoff only runs in the catch branch, so a loop
whose attempts all resolve (with whatever HTTP status) never sleeps. -/
theorem retryFetch3_no_thrown_no_sleep (k : Nat → FetchAttempt)
    (hok : ∀ i, i < 3 → k i ≠ FetchAttempt.thrown) :
    (retryFetch3 k).sleepMs = 0 := by
  rcases h0 : k 0 with _ | st0
  · exact absurd h0 (hok 0 (by omega))
  · rcases h1 : k 1 with _ | st1
    · exact absurd h1 (hok 1 (by omega))
    · rcases h2 : k 2 with _ | st2
      · exact absurd h2 (hok 2 (by omega))
      · simp [retryFetch3, retryGo, h0, h1, h2]
        split_ifs <;> simp

/-- C7 counterexample: when the Ferdev resolution fetch resolves with HTTP
500 three times, the spotify-download loop makes its 3 attempts with a
total backoff of 0 ms — the retries between non-ok responses carry no
2-second backoff. -/
theorem spotify_retry_no_backoff_on_http_error :
    retryFetch3 (fun _ => FetchAttempt.resp 500) = ⟨3, 0, .res 500⟩ ∧
    (retryFetch3 (fun _ => FetchAttempt.resp 500)).sleepMs ≠ 2 * 2000 := by
  constructor
  · rfl
  · intro h
    simp [retryFetch3, retryGo, respOk] at h

/-- C7 amended: spotify-download's resolution and MP3 fetches are each
attempted at most 3 times; when all 3 attempts throw, the loop makes
exactly 3 calls with a fixed 2-second backoff after each of the first two
and then surfaces the error; the backoff runs only after thrown attempts —
attempts that resolve with a non-success status are retried immediately
with no backoff; every other external call (metadata search, the whole
YouTube path) makes exactly one attempt and never sleeps. -/
theorem spotify_retry_and_fail_fast (f g : Nat → FetchAttempt)
    (hthrow : ∀ i, i < 3 → f i = FetchAttempt.thrown) :
    retryFetch3 f = ⟨3, 4000, .threw⟩ ∧
    (∀ k, (retryFetch3 k).calls ≤ 3) ∧
    (∀ k, (∀ i, i < 3 → k i ≠ FetchAttempt.thrown) →
      (retryFetch3 k).sleepMs = 0) ∧
    (fetchOnce g).calls = 1 ∧
    (∀ k, (fetchOnce k).sleepMs = 0) := by
  refine ⟨?_, retryFetch3_calls_le, retryFetch3_no_thrown_no_sleep, ?_, ?_⟩
  · simp [retryFetch3, retryGo, hthrow 0 (by omega), hthrow 1 (by omega),
      hthrow 2 (by omega)]
  · rcases hg : g 0 <;> simp [fetchOnce, hg]
  · intro k
    rcases hk : k 0 <;> simp [fetchOnce, hk]

/-- C7 amended, witness: an always-throwing resolution stream and a
single-shot fetch that resolves with 500. -/
theorem spotify_retry_and_fail_fast_witness :
    retryFetch3 (fun _ => FetchAttempt.thrown) = ⟨3, 4000, .threw⟩ ∧
    (∀ k, (retryFetch3 k).calls ≤ 3) ∧
    (∀ k, (∀ i, i < 3 → k i ≠ FetchAttempt.thrown) →
      (retryFetch3 k).sleepMs = 0) ∧
    (fetchOnce (fun _ => FetchAttempt.resp 404)).calls = 1 ∧
    (∀ k, (fetchOnce k).sleepMs = 0) :=
  spotify_retry_and_fail_fast (fun _ => FetchAttempt.thrown)
    (fun _ => FetchAttempt.resp 404) (fun _ _ => rfl)

/-- Helper for C6, yt path: with the R2 put failing, yt-download leaves the
catalog unchanged, sends at most one put, answers outside 2xx, and answers
500 whenever the put was actually reached. -/
theorem yt_blob_error_aborts (env : YtIngestEnv) (url : Option String)
    (artistId : Option (List String)) (albumId genre : Option String)
    (customTitle : Option String) (customArtistNames : Option (List String))
    (cat : List SongCreateData) (msg : String)
    (h : env.blob = Except.error msg) :
    (ytDownloadHandler env url artistId albumId genre customTitle
      customArtistNames cat).catalog = cat ∧
    (ytDownloadHandler env url artistId albumId genre customTitle
      customArtistNames cat).blobPuts ≤ 1 ∧
    respOk (ytDownloadHandler env url artistId albumId genre customTitle
      customArtistNames cat).status = false ∧
    ((ytDownloadHandler env url artistId albumId genre customTitle
      customArtistNames cat).blobPuts = 1 →
      (ytDownloadHandler env url artistId albumId genre customTitle
        customArtistNames cat).status = 500) := by
  simp only [ytDownloadHandler, h]
  repeat' split
  all_goals simp_all [respOk]
  all_goals omega

/-- Helper for C6, spotify path: the same facts for spotify-download. -/
theorem spotify_blob_error_aborts (env : SpotifyIngestEnv)
    (url : Option String) (artistId : Option (List String))
    (albumId genre : Option String) (customTitle : Option String)
    (customArtistNames : Option (List String))
    (cat : List SongCreateData) (msg : String)
    (h : env.blob = Except.error msg) :
    (spotifyDownloadHandler env url artistId albumId genre customTitle
      customArtistNames cat).catalog = cat ∧
    (spotifyDownloadHandler env url artistId albumId genre customTitle
      customArtistNames cat).blobPuts ≤ 1 ∧
    respOk (spotifyDownloadHandler env url artistId albumId genre customTitle
      customArtistNames cat).status = false ∧
    ((spotifyDownloadHandler env url artistId albumId genre customTitle
      customArtistNames cat).blobPuts = 1 →
      (spotifyDownloadHandler env url artistId albumId genre customTitle
        customArtistNames cat).status = 500) := by
  simp only [spotifyDownloadHandler, h]
  repeat' split
  all_goals simp_all [respOk]
  all_goals omega

/-- C6: when the R2 put fails during ingestion — on either the YouTube or
the Spotify path — the put is issued at most once (never retried), the run
answers a non-2xx status (500 whenever the put was reached), and no Song
row is created: the catalog is exactly what it was. -/
theorem blob_write_failure_aborts_ingestion
    (envY : YtIngestEnv) (envS : SpotifyIngestEnv)
    (urlY urlS : Option String) (aidY aidS : Option (List String))
    (albY genY albS genS : Option String) (ctY ctS : Option String)
    (canY canS : Option (List String)) (catY catS : List SongCreateData)
    (msgY msgS : String)
    (hY : envY.blob = Except.error msgY)
    (hS : envS.blob = Except.error msgS) :
    ((ytDownloadHandler envY urlY aidY albY genY ctY canY catY).catalog
        = catY ∧
      (ytDownloadHandler envY urlY aidY albY genY ctY canY catY).blobPuts
        ≤ 1 ∧
      respOk (ytDownloadHandler envY urlY aidY albY genY ctY canY
        catY).status = false ∧
      ((ytDownloadHandler envY urlY aidY albY genY ctY canY catY).blobPuts
          = 1 →
        (ytDownloadHandler envY urlY aidY albY genY ctY canY catY).status
          = 500)) ∧
    ((spotifyDownloadHandler envS urlS aidS albS genS ctS canS
        catS).catalog = catS ∧
      (spotifyDownloadHandler envS urlS aidS albS genS ctS canS
        catS).blobPuts ≤ 1 ∧
      respOk (spotifyDownloadHandler envS urlS aidS albS genS ctS canS
        catS).status = false ∧
      ((spotifyDownloadHandler envS urlS aidS albS genS ctS canS
          catS).blobPuts = 1 →
        (spotifyDownloadHandler envS urlS aidS albS genS ctS canS
          catS).status = 500)) :=
  ⟨yt_blob_error_aborts envY urlY aidY albY genY ctY canY catY msgY hY,
   spotify_blob_error_aborts envS urlS aidS albS genS ctS canS catS msgS hS⟩

/-- C6 witness: both pipelines run against healthy external calls but a
failing R2 put — each leaves its catalog unchanged and errors out. -/
theorem blob_write_failure_aborts_ingestion_witness :
    ((ytDownloadHandler
        ⟨.resp 200, ⟨true, true, "Raw", none, some 100, "dl"⟩,
          ("Clean", ["A"]), .resp 200, Except.error "boom", "u0"⟩
        (some "https://y") none none none none none []).catalog = [] ∧
      (ytDownloadHandler
        ⟨.resp 200, ⟨true, true, "Raw", none, some 100, "dl"⟩,
          ("Clean", ["A"]), .resp 200, Except.error "boom", "u0"⟩
        (some "https://y") none none none none none []).blobPuts ≤ 1 ∧
      respOk (ytDownloadHandler
        ⟨.resp 200, ⟨true, true, "Raw", none, some 100, "dl"⟩,
          ("Clean", ["A"]), .resp 200, Except.error "boom", "u0"⟩
        (some "https://y") none none none none none []).status = false ∧
      ((ytDownloadHandler
        ⟨.resp 200, ⟨true, true, "Raw", none, some 100, "dl"⟩,
          ("Clean", ["A"]), .resp 200, Except.error "boom", "u0"⟩
        (some "https://y") none none none none none []).blobPuts = 1 →
        (ytDownloadHandler
          ⟨.resp 200, ⟨true, true, "Raw", none, some 100, "dl"⟩,
            ("Clean", ["A"]), .resp 200, Except.error "boom", "u0"⟩
          (some "https://y") none none none none none []).status = 500)) ∧
    ((spotifyDownloadHandler
        ⟨fun _ => .resp 200,
          ⟨true, true, "T", "A,B", some "dl", none, none, none, none,
            some 123⟩,
          fun _ => .resp 200, Except.error "boom", "u0"⟩
        (some "https://s") none none none none none []).catalog = [] ∧
      (spotifyDownloadHandler
        ⟨fun _ => .resp 200,
          ⟨true, true, "T", "A,B", some "dl", none, none, none, none,
            some 123⟩,
          fun _ => .resp 200, Except.error "boom", "u0"⟩
        (some "https://s") none none none none none []).blobPuts ≤ 1 ∧
      respOk (spotifyDownloadHandler
        ⟨fun _ => .resp 200,
          ⟨true, true, "T", "A,B", some "dl", none, none, none, none,
            some 123⟩,
          fun _ => .resp 200, Except.error "boom", "u0"⟩
        (some "https://s") none none none none none []).status = false ∧
      ((spotifyDownloadHandler
        ⟨fun _ => .resp 200,
          ⟨true, true, "T", "A,B", some "dl", none, none, none, none,
            some 123⟩,
          fun _ => .resp 200, Except.error "boom", "u0"⟩
        (some "https://s") none none none none none []).blobPuts = 1 →
        (spotifyDownloadHandler
          ⟨fun _ => .resp 200,
            ⟨true, true, "T", "A,B", some "dl", none, none, none, none,
              some 123⟩,
            fun _ => .resp 200, Except.error "boom", "u0"⟩
          (some "https://s") none none none none none []).status = 500)) :=
  blob_write_failure_aborts_ingestion
    ⟨.resp 200, ⟨true, true, "Raw", none, some 100, "dl"⟩,
      ("Clean", ["A"]), .resp 200, Except.error "boom", "u0"⟩
    ⟨fun _ => .resp 200,
      ⟨true, true, "T", "A,B", some "dl", none, none, none, none, some 123⟩,
      fun _ => .resp 200, Except.error "boom", "u0"⟩
    (some "https://y") (some "https://s") none none none none none none
    none none none none [] [] "boom" "boom" rfl rfl

/-- C10: whatever the upstream downloader reports (including any duration
information in its payload), a Song row created by spotify-download is
persisted with `durationSec` 0 — the run either leaves the catalog alone or
appends exactly one row whose `durationSec` is 0. -/
theorem spotify_download_duration_zero (env : SpotifyIngestEnv)
    (spotifyUrl : Option String) (artistId : Option (List String))
    (albumId genre : Option String) (customTitle : Option String)
    (customArtistNames : Option (List String))
    (cat : List SongCreateData) :
    (spotifyDownloadHandler env spotifyUrl artistId albumId genre
      customTitle customArtistNames cat).catalog = cat ∨
    ∃ song, (spotifyDownloadHandler env spotifyUrl artistId albumId genre
      customTitle customArtistNames cat).catalog = cat ++ [song] ∧
      song.durationSec = 0 := by
  simp only [spotifyDownloadHandler]
  repeat' split
  all_goals first
    | (left; rfl)
    | (right; exact ⟨_, rfl, rfl⟩)

/-- Helper: scanning for a "-" separator over characters none of which is
"-" never splits: the accumulator and the rest come back as one segment. -/
theorem splitSepGo_no_dash (l : List Char) (acc : List Char) (fuel : Nat)
    (hfuel : l.length ≤ fuel) (h : ∀ c ∈ l, c ≠ '-') :
    splitSepGo matchHeadEq ['-'] fuel acc l = [acc.reverse ++ l] := by
  induction l generalizing acc fuel with
  | nil =>
    cases fuel with
    | zero => simp [splitSepGo]
    | succ f => simp [splitSepGo]
  | cons c cs ih =>
    cases fuel with
    | zero => simp at hfuel
    | succ f =>
      have hc : ¬('-' = c) := fun hh => h c (by simp) hh.symm
      have hm : matchHeadEq ['-'] (c :: cs) = none := by
        simp [matchHeadEq, hc]
      simp only [splitSepGo, hm]
      rw [ih (c :: acc) f (by simp at hfuel; omega)
        (fun d hd => h d (List.mem_cons_of_mem _ hd))]
      simp

/-- Helper: JS `split('-')` of a string without "-" is the whole string. -/
theorem jsSplitDash_no_dash (s : String) (h : ∀ c ∈ s.data, c ≠ '-') :
    jsSplitDash s = [s] := by
  have hsp : splitSepGo matchHeadEq ['-'] (s.length + 1) [] s.data
      = [[] ++ s.data] := by
    apply splitSepGo_no_dash _ _ _ _ h
    rw [← String.length_data]
    omega
  simp only [jsSplitDash, jsSplit, Bool.false_eq_true, if_false]
  rw [hsp]
  simp

/-- Helper: `parseArtists` yields nothing without a "-" separator. -/
theorem parseArtists_no_dash (s : String) (h : ∀ c ∈ s.data, c ≠ '-') :
    parseArtists s = [] := by
  have hall : s.data.all (fun c => c ≠ '-') = true := by
    simp only [List.all_eq_true, decide_eq_true_eq]
    exact h
  unfold parseArtists
  rw [if_pos hall]

/-- Helper: without a "-", the last dash segment of a trim-stable string is
the string itself. -/
theorem lastDashSegment_no_dash (s : String) (h : ∀ c ∈ s.data, c ≠ '-')
    (htrim : jsTrim s = s) : lastDashSegment s = s := by
  simp [lastDashSegment, jsSplitDash_no_dash s h, htrim, jsOrStr]

/-- Helper: on a no-separator input that trimming and noise-stripping leave
alone, both deterministic branches return the input as title and sole
artist. -/
theorem cleanMetadata_no_dash (s : String) (h : ∀ c ∈ s.data, c ≠ '-')
    (htrim : jsTrim s = s) (hnoise : stripNoise s = s) :
    cleanMetadataFallback s = (s, [s]) ∧ cleanMetadataNoKey s = (s, [s]) := by
  have hp := parseArtists_no_dash s h
  have hl := lastDashSegment_no_dash s h htrim
  have hd := jsSplitDash_no_dash s h
  constructor
  · simp [cleanMetadataFallback, hp, hl, hd, hnoise, htrim]
  · simp [cleanMetadataNoKey, hp, hl, hd, htrim]

set_option maxRecDepth 8000 in
/-- C2 counterexample: "LYRICS" contains no "-", yet the AI-failure
fallback parser strips it as a noise token and returns title "", not the
whole input; and on the claim's first example the no-API-key branch keeps
the noise suffix, so neither deterministic branch satisfies the claim as
stated. -/
theorem local_parser_counterexample :
    ("LYRICS".data.all (fun c => c ≠ '-')) = true ∧
    (cleanMetadataFallback "LYRICS").1 = "" ∧
    (("" : String) ≠ "LYRICS") ∧
    (cleanMetadataNoKey "Tulus - Gajah (Official Music Video)").1
      = "Gajah (Official Music Video)" := by
  decide

set_option maxRecDepth 8000 in
/-- C2 amended: the AI-failure fallback parser satisfies the three
examples — "Tulus - Gajah (Official Music Video)" ↦ ("Gajah", ["Tulus"]),
"Tulus & Raisa - Duet" ↦ artists ["Tulus", "Raisa"], "SingleWordTitle" ↦
("SingleWordTitle", ["SingleWordTitle"]) — and for an input with no "-"
separator both deterministic branches return the whole input as the title
and the sole artist candidate provided the input is trim-stable and (for
the fallback branch) matches no noise token; in general the title is the
trimmed, noise-stripped input. -/
theorem local_parser_spec (s : String)
    (hnodash : ∀ c ∈ s.data, c ≠ '-')
    (htrim : jsTrim s = s) (hnoise : stripNoise s = s) :
    cleanMetadataFallback "Tulus - Gajah (Official Music Video)"
      = ("Gajah", ["Tulus"]) ∧
    (cleanMetadataFallback "Tulus & Raisa - Duet").2 = ["Tulus", "Raisa"] ∧
    cleanMetadataFallback "SingleWordTitle"
      = ("SingleWordTitle", ["SingleWordTitle"]) ∧
    cleanMetadataFallback s = (s, [s]) ∧
    cleanMetadataNoKey s = (s, [s]) := by
  have hs := cleanMetadata_no_dash s hnodash htrim hnoise
  exact ⟨by decide, by decide, by decide, hs.1, hs.2⟩

set_option maxRecDepth 8000 in
/-- C2 amended, witness: the no-separator clause at the concrete input
"Hello world". -/
theorem local_parser_spec_witness :
    cleanMetadataFallback "Tulus - Gajah (Official Music Video)"
      = ("Gajah", ["Tulus"]) ∧
    (cleanMetadataFallback "Tulus & Raisa - Duet").2 = ["Tulus", "Raisa"] ∧
    cleanMetadataFallback "SingleWordTitle"
      = ("SingleWordTitle", ["SingleWordTitle"]) ∧
    cleanMetadataFallback "Hello world" = ("Hello world", ["Hello world"]) ∧
    cleanMetadataNoKey "Hello world" = ("Hello world", ["Hello world"]) :=
  local_parser_spec "Hello world" (by decide) (by decide) (by decide)
